import Mathlib

/-!
# Verification of the LumeButton custom element (src/cdn.js)

Shallow embedding of the `LumeButton` class from `src/cdn.js`.

* The element's attribute bag is a list of name/value pairs (DOM semantics:
  at most one entry per name; `getAttribute` of an absent name is `none`,
  modelling JavaScript `null`).
* Property getters/setters are pure functions over the bag.
* `handleClick` / `handleKeydown` return an explicit record of all their
  effects (event mutation, navigation requests, dispatched events, logging).
  The user-supplied `onclick-handler` is an opaque callable; it is modelled
  by a `HandlerOutcome` describing whether construction/invocation threw and
  what it did to the event before (possibly) throwing.  The `try/catch` in
  the source is modelled by the `errorLogged` field: a throwing handler
  produces a `console.error` log entry and the function continues normally
  (nothing is re-thrown: the model is a total function).
* `render` produces the exact `shadowRoot.innerHTML` string; the literal
  text of the template is carried in the `tplChunk*` / `glowChunk*` /
  `hoverChunk*` constants (braces and apostrophes are written with hex
  escapes).
* `_upgradeProperties` is modelled over the instance's plain own properties
  together with the prototype accessors actually declared by the class;
  the file is an ES module, hence strict mode, hence assigning to a name
  that only has a getter throws a `TypeError`, modelled with `Except`.
-/

namespace LumeButton

/-! ## Attribute bag (DOM attribute semantics) -/

/-- The element's attributes: at most one value per name. -/
abbrev Attrs := List (String × String)

/-- `getAttribute`: the value of the first entry with the given name, `none`
(JavaScript `null`) when absent. -/
def getAttribute (a : Attrs) (n : String) : Option String :=
  (a.find? (fun p => p.1 = n)).map (·.2)

/-- `hasAttribute`. -/
def hasAttribute (a : Attrs) (n : String) : Bool :=
  (getAttribute a n).isSome

/-- `setAttribute`: replaces any existing entry for the name. -/
def setAttribute (a : Attrs) (n v : String) : Attrs :=
  (n, v) :: a.filter (fun p => p.1 ≠ n)

/-- `removeAttribute`. -/
def removeAttribute (a : Attrs) (n : String) : Attrs :=
  a.filter (fun p => p.1 ≠ n)

/-- JavaScript truthiness of a nullable string (`null`, `undefined` and `""`
are falsy). -/
def truthy : Option String → Bool
  | none => false
  | some s => s ≠ ""

/-- JavaScript `x || d` for a nullable string `x`: `null` and `""` fall
through to the default. -/
def jsOr (v : Option String) (d : String) : String :=
  match v with
  | none => d
  | some s => if s = "" then d else s

/-! ## Configuration resolver: getters with validation and defaults
(src/cdn.js lines 63–154) -/

/-- `validVariants` from `get variant`. -/
def validVariants : List String :=
  ["primary", "secondary", "outlined", "ghost", "glow", "icon-btn", "link"]

/-- `validSizes` from `get size`. -/
def validSizes : List String := ["small", "medium", "large"]

/-- `validTargets` from `get target`. -/
def validTargets : List String := ["_self", "_blank", "_parent", "_top"]

/-- Resolution step of `get variant` applied to the raw attribute value:
`value = raw || "primary"; validVariants.includes(value) ? value : "primary"`. -/
def resolveVariant (raw : Option String) : String :=
  let value := jsOr raw "primary"
  if validVariants.contains value then value else "primary"

/-- Resolution step of `get size`. -/
def resolveSize (raw : Option String) : String :=
  let value := jsOr raw "medium"
  if validSizes.contains value then value else "medium"

/-- Resolution step of `get target`. -/
def resolveTarget (raw : Option String) : String :=
  let value := jsOr raw "_self"
  if validTargets.contains value then value else "_self"

/-- `get variant`. -/
def variant (a : Attrs) : String := resolveVariant (getAttribute a "variant")

/-- `get size`. -/
def size (a : Attrs) : String := resolveSize (getAttribute a "size")

/-- `get disabled` (`hasAttribute`). -/
def disabled (a : Attrs) : Bool := hasAttribute a "disabled"

/-- `get loading`. -/
def loading (a : Attrs) : Bool := hasAttribute a "loading"

/-- `get fullWidth` (attribute `full-width`). -/
def fullWidth (a : Attrs) : Bool := hasAttribute a "full-width"

/-- `get href` (plain `getAttribute`, may be `null`). -/
def href (a : Attrs) : Option String := getAttribute a "href"

/-- `get target`. -/
def target (a : Attrs) : String := resolveTarget (getAttribute a "target")

/-- `get color`. -/
def color (a : Attrs) : Option String := getAttribute a "color"

/-- `get bgColor` (attribute `bg-color`). -/
def bgColor (a : Attrs) : Option String := getAttribute a "bg-color"

/-- `get hoverColor` (attribute `hover-color`). -/
def hoverColor (a : Attrs) : Option String := getAttribute a "hover-color"

/-- `get hoverBgColor` (attribute `hover-bg-color`). -/
def hoverBgColor (a : Attrs) : Option String := getAttribute a "hover-bg-color"

/-- `get activeColor` (attribute `active-color`). -/
def activeColor (a : Attrs) : Option String := getAttribute a "active-color"

/-- `get activeBgColor` (attribute `active-bg-color`). -/
def activeBgColor (a : Attrs) : Option String := getAttribute a "active-bg-color"

/-- `get border`. -/
def border (a : Attrs) : Option String := getAttribute a "border"

/-- `get radius`. -/
def radius (a : Attrs) : Option String := getAttribute a "radius"

/-- `get padding`. -/
def padding (a : Attrs) : Option String := getAttribute a "padding"

/-- `get fontSize` (attribute `font-size`). -/
def fontSize (a : Attrs) : Option String := getAttribute a "font-size"

/-- `get fontWeight` (attribute `font-weight`). -/
def fontWeight (a : Attrs) : Option String := getAttribute a "font-weight"

/-- `get width`. -/
def widthAttr (a : Attrs) : Option String := getAttribute a "width"

/-- `get height`. -/
def heightAttr (a : Attrs) : Option String := getAttribute a "height"

/-- `get glowColor` (attribute `glow-color`). -/
def glowColor (a : Attrs) : Option String := getAttribute a "glow-color"

/-- `get shadow`. -/
def shadowAttr (a : Attrs) : Option String := getAttribute a "shadow"

/-- `get onclickHandler` (attribute `onclick-handler`). -/
def onclickHandler (a : Attrs) : Option String := getAttribute a "onclick-handler"

/-! ## Property setters (src/cdn.js lines 156–174) -/

/-- `set variant(value)`: unconditional `setAttribute`. -/
def setVariant (a : Attrs) (value : String) : Attrs := setAttribute a "variant" value

/-- `set size(value)`. -/
def setSize (a : Attrs) (value : String) : Attrs := setAttribute a "size" value

/-- `set disabled(value)`: presence toggle. -/
def setDisabled (a : Attrs) (value : Bool) : Attrs :=
  if value then setAttribute a "disabled" "" else removeAttribute a "disabled"

/-- `set loading(value)`. -/
def setLoading (a : Attrs) (value : Bool) : Attrs :=
  if value then setAttribute a "loading" "" else removeAttribute a "loading"

/-- `set href(value)`: `if (value) setAttribute else removeAttribute` —
note the JavaScript truthiness test, under which the empty string clears
the attribute. -/
def setHref (a : Attrs) (value : Option String) : Attrs :=
  if truthy value then setAttribute a "href" ((value).getD "") else removeAttribute a "href"

/-! ## validate (src/cdn.js lines 721–729) -/

/-- `validate()`: one warning when both `disabled` and `loading` are set,
otherwise no issues. -/
def validate (a : Attrs) : List String :=
  let issues : List String := []
  let issues := if disabled a && loading a then
      issues ++ ["Button cannot be both disabled and loading"]
    else issues
  issues

/-! ## Interaction controller (src/cdn.js lines 201–253)

Effects are made explicit.  An `Event` carries the mutable flags the
handlers touch (`preventDefault` / `stopPropagation`) plus the fields the
ripple handler reads.  Navigation requests (`window.open`,
`window.location.href = …`) are collected in order. -/

/-- The slice of a DOM event observable by the handlers. -/
structure Event where
  key : String := ""
  clientX : ℚ := 0
  clientY : ℚ := 0
  defaultPrevented : Bool := false
  propagationStopped : Bool := false
  deriving DecidableEq, Repr

/-- Outcome of constructing (`new Function`) and invoking the opaque
user-supplied `onclick-handler`.  `threw` covers a throw at either stage;
`prevented` / `stopped` record what the handler did to the event before
(possibly) throwing.  The real handler is arbitrary code; this record is
the full interface the rest of `handleClick` can observe. -/
structure HandlerOutcome where
  threw : Bool := false
  prevented : Bool := false
  stopped : Bool := false
  deriving DecidableEq, Repr

/-- A navigation request issued by `handleClick`. -/
inductive NavAction where
  /-- `window.open(url, windowTarget, features)` -/
  | openWindow (url windowTarget features : String)
  /-- `window.location.href = url` -/
  | setLocationHref (url : String)
  deriving DecidableEq, Repr

/-- Payload of the `lume-click` `CustomEvent` (`detail`), as built at
dispatch time. -/
structure LumeClickDetail where
  /-- `button: this` — reference to the instance, identified by its
  attribute bag. -/
  button : Attrs
  /-- `originalEvent: event` — the (by now possibly mutated) event. -/
  originalEvent : Event
  /-- `href: this.href` -/
  href : Option String
  /-- `variant: this.variant` -/
  variant : String
  /-- `size: this.size` -/
  size : String
  deriving DecidableEq, Repr

/-- Everything `handleClick` does. -/
structure ClickResult where
  /-- final state of the event's flags -/
  event : Event
  /-- whether the custom-handler branch ran (handler constructed+invoked) -/
  actionAttempted : Bool
  /-- `console.error` output from the `catch` block, if any -/
  errorLogged : Option String
  /-- navigation requests, in order -/
  navigations : List NavAction
  /-- the dispatched `lume-click` event's detail, if dispatched -/
  dispatched : Option LumeClickDetail
  deriving DecidableEq, Repr

/-- `handleClick(event)` (src/cdn.js lines 212–253).  `h` models the opaque
`onclick-handler` callable's behavior; it is only consulted when the
attribute is truthy, mirroring `if (this.onclickHandler)`. -/
def handleClick (a : Attrs) (ev : Event) (h : HandlerOutcome) : ClickResult :=
  if disabled a || loading a then
    { event := { ev with defaultPrevented := true, propagationStopped := true }
      actionAttempted := false
      errorLogged := none
      navigations := []
      dispatched := none }
  else
    let hasHandler := truthy (onclickHandler a)
    let ev1 : Event :=
      if hasHandler then
        { ev with defaultPrevented := ev.defaultPrevented || h.prevented
                  propagationStopped := ev.propagationStopped || h.stopped }
      else ev
    let logged : Option String :=
      if hasHandler && h.threw then some "Error executing onclick handler:" else none
    let doNav := truthy (href a) && !ev1.defaultPrevented
    let ev2 : Event := if doNav then { ev1 with defaultPrevented := true } else ev1
    let navigations : List NavAction :=
      if doNav then
        if target a = "_blank" then
          [.openWindow ((href a).getD "") "_blank" "noopener,noreferrer"]
        else
          [.setLocationHref ((href a).getD "")]
      else []
    { event := ev2
      actionAttempted := hasHandler
      errorLogged := logged
      navigations := navigations
      dispatched := some
        { button := a
          originalEvent := ev2
          href := href a
          variant := variant a
          size := size a } }

/-- Result of `handleKeydown`: the final event flags, and the inner
`handleClick` result when the activation path was taken. -/
structure KeydownResult where
  event : Event
  click : Option ClickResult
  deriving DecidableEq, Repr

/-- `handleKeydown(event)` (src/cdn.js lines 201–210).  Note that when the
element is gated (disabled or loading) the guard fails and the handler
returns without touching the event at all. -/
def handleKeydown (a : Attrs) (ev : Event) (h : HandlerOutcome) : KeydownResult :=
  if (ev.key = "Enter" || ev.key = " ") && !disabled a && !loading a then
    let ev' : Event := { ev with defaultPrevented := true }
    let r := handleClick a ev' h
    { event := r.event, click := some r }
  else
    { event := ev, click := none }

/-! ## Render engine (src/cdn.js lines 255-644)

The literal text of the `shadowRoot.innerHTML` template (lines 327-640),
split at its interpolation points, in source order.  Braces are written
`\x7b`/`\x7d` and apostrophes `\x27`. -/

def tplChunk0 : String :=
  "\n      <style>\n        :host \x7b\n          display: "

def tplChunk1 : String :=
  ";\n          --primary-bg: #2563eb;\n          --primary-color: #ffffff;\n          --primary-hover-bg: #1d4ed8;\n          --primary-active-bg: #1e40af;\n          \n          --secondary-bg: #6b7280;\n          --secondary-color: #ffffff;\n          --secondary-hover-bg: #4b5563;\n          --secondary-active-bg: #374151;\n          \n          --outlined-bg: transparent;\n          --outlined-color: #2563eb;\n          --outlined-border: 1px solid #2563eb;\n          --outlined-hover-bg: #2563eb;\n          --outlined-hover-color: #ffffff;\n          \n          --ghost-bg: transparent;\n          --ghost-color: #374151;\n          --ghost-hover-bg: #f3f4f6;\n          --ghost-active-bg: #e5e7eb;\n          \n          --link-bg: transparent;\n          --link-color: #2563eb;\n          --link-hover-color: #1d4ed8;\n        \x7d\n\n        :host([hidden]) \x7b\n          display: none !important;\n        \x7d\n\n        :host([full-width]) .btn \x7b\n          width: 100%;\n        \x7d\n\n        .btn \x7b\n          display: inline-flex;\n          align-items: center;\n          justify-content: center;\n          gap: 0.5rem;\n          position: relative;\n          overflow: hidden;\n          \n          font-family: \x27Inter\x27, -apple-system, BlinkMacSystemFont, \x27Segoe UI\x27, Roboto, sans-serif;\n          font-weight: 500;\n          text-decoration: none;\n          text-align: center;\n          white-space: nowrap;\n          user-select: none;\n          vertical-align: middle;\n          line-height: 1.2;\n          \n          min-width: 0;\n          border: 1px solid transparent;\n          border-radius: 0.5rem;\n          \n          cursor: pointer;\n          transition: all 0.15s ease-in-out;\n          outline: none;\n        \x7d\n\n        /* Size variants */\n        .size-small \x7b\n          font-size: 0.875rem;\n          padding: 0.375rem 0.75rem;\n          min-height: 2rem;\n        \x7d\n\n        .size-medium \x7b\n          font-size: 1rem;\n          padding: 0.5rem 1rem;\n          min-height: 2.5rem;\n        \x7d\n\n        .size-large \x7b\n          font-size: 1.125rem;\n          padding: 0.75rem 1.5rem;\n          min-height: 3rem;\n        \x7d\n\n        /* Variant styles */\n        .variant-primary \x7b\n          background-color: var(--primary-bg);\n          color: var(--primary-color);\n          border-color: var(--primary-bg);\n        \x7d\n\n        .variant-primary:hover:not(.disabled):not(.loading) \x7b\n          background-color: var(--primary-hover-bg);\n          border-color: var(--primary-hover-bg);\n          transform: translateY(-1px);\n        \x7d\n\n        .variant-primary:active:not(.disabled):not(.loading) \x7b\n          background-color: var(--primary-active-bg);\n          border-color: var(--primary-active-bg);\n          transform: translateY(0);\n        \x7d\n\n        .variant-secondary \x7b\n          background-color: var(--secondary-bg);\n          color: var(--secondary-color);\n          border-color: var(--secondary-bg);\n        \x7d\n\n        .variant-secondary:hover:not(.disabled):not(.loading) \x7b\n          background-color: var(--secondary-hover-bg);\n          border-color: var(--secondary-hover-bg);\n          transform: translateY(-1px);\n        \x7d\n\n        .variant-secondary:active:not(.disabled):not(.loading) \x7b\n          background-color: var(--secondary-active-bg);\n          border-color: var(--secondary-active-bg);\n          transform: translateY(0);\n        \x7d\n\n        .variant-outlined \x7b\n          background-color: var(--outlined-bg);\n          color: var(--outlined-color);\n          border: var(--outlined-border);\n        \x7d\n\n        .variant-outlined:hover:not(.disabled):not(.loading) \x7b\n          background-color: var(--outlined-hover-bg);\n          color: var(--outlined-hover-color);\n          transform: translateY(-1px);\n        \x7d\n\n        .variant-outlined:active:not(.disabled):not(.loading) \x7b\n          background-color: var(--primary-active-bg);\n          color: var(--outlined-hover-color);\n          transform: translateY(0);\n        \x7d\n\n        .variant-ghost \x7b\n          background-color: var(--ghost-bg);\n          color: var(--ghost-color);\n          border-color: transparent;\n        \x7d\n\n        .variant-ghost:hover:not(.disabled):not(.loading) \x7b\n          background-color: var(--ghost-hover-bg);\n          transform: translateY(-1px);\n        \x7d\n\n        .variant-ghost:active:not(.disabled):not(.loading) \x7b\n          background-color: var(--ghost-active-bg);\n          transform: translateY(0);\n        \x7d\n\n        .variant-glow \x7b\n          background-color: var(--primary-bg);\n          color: var(--primary-color);\n          border-color: var(--primary-bg);\n          box-shadow: 0 0 20px rgba(37, 99, 235, 0.5);\n        \x7d\n\n        .variant-glow:hover:not(.disabled):not(.loading) \x7b\n          background-color: var(--primary-hover-bg);\n          border-color: var(--primary-hover-bg);\n          box-shadow: 0 0 30px rgba(37, 99, 235, 0.8);\n          transform: translateY(-1px);\n        \x7d\n\n        .variant-glow:active:not(.disabled):not(.loading) \x7b\n          background-color: var(--primary-active-bg);\n          border-color: var(--primary-active-bg);\n          transform: translateY(0);\n        \x7d\n\n        .variant-link \x7b\n          background-color: var(--link-bg);\n          color: var(--link-color);\n          border: none;\n          box-shadow: none;\n          padding: 0;\n          min-height: auto;\n          text-decoration: underline;\n        \x7d\n\n        .variant-link:hover:not(.disabled):not(.loading) \x7b\n          color: var(--link-hover-color);\n          transform: none;\n        \x7d\n\n        .variant-link:active:not(.disabled):not(.loading) \x7b\n          color: var(--primary-active-bg);\n          transform: none;\n        \x7d\n\n        .variant-icon-btn \x7b\n          padding: 0.5rem;\n          aspect-ratio: 1;\n          border-radius: 50%;\n          background-color: var(--primary-bg);\n          color: var(--primary-color);\n        \x7d\n\n        .variant-icon-btn.size-small \x7b\n          padding: 0.375rem;\n        \x7d\n\n        .variant-icon-btn.size-large \x7b\n          padding: 0.75rem;\n        \x7d\n\n        .variant-icon-btn:hover:not(.disabled):not(.loading) \x7b\n          background-color: var(--primary-hover-bg);\n          transform: translateY(-1px);\n        \x7d\n\n        .variant-icon-btn:active:not(.disabled):not(.loading) \x7b\n          background-color: var(--primary-active-bg);\n          transform: translateY(0);\n        \x7d\n\n        /* Custom glow effect */\n        "

def tplChunk2 : String :=
  "\n\n        /* Custom hover and active styles with proper specificity */\n        "

def tplChunk3 : String :=
  "\n\n        .btn:focus-visible \x7b\n          outline: 2px solid currentColor;\n          outline-offset: 2px;\n        \x7d\n\n        .btn.disabled,\n        .btn.loading \x7b\n          opacity: 0.6;\n          cursor: not-allowed;\n          pointer-events: none;\n          transform: none !important;\n        \x7d\n\n        /* Loading state */\n        .loading-spinner \x7b\n          width: 1em;\n          height: 1em;\n          border: 2px solid transparent;\n          border-top: 2px solid currentColor;\n          border-radius: 50%;\n          animation: spin 1s linear infinite;\n        \x7d\n\n        @keyframes spin \x7b\n          to \x7b transform: rotate(360deg); \x7d\n        \x7d\n\n        /* Ripple effect */\n        .ripple \x7b\n          position: absolute;\n          border-radius: 50%;\n          background-color: rgba(255, 255, 255, 0.4);\n          transform: scale(0);\n          animation: ripple-animation 0.6s ease-out;\n          pointer-events: none;\n          z-index: 1;\n        \x7d\n\n        @keyframes ripple-animation \x7b\n          to \x7b \n            transform: scale(4); \n            opacity: 0; \n          \x7d\n        \x7d\n\n        /* Slot styles */\n        ::slotted(svg),\n        ::slotted(i),\n        ::slotted(.icon) \x7b\n          width: 1em;\n          height: 1em;\n          flex-shrink: 0;\n        \x7d\n\n        .btn-content \x7b\n          display: inline-flex;\n          align-items: center;\n          gap: 0.5rem;\n          z-index: 2;\n          position: relative;\n        \x7d\n      </style>\n\n      <"

def tplChunk4 : String :=
  "\n        class=\"btn "

def tplChunk5 : String :=
  " variant-"

def tplChunk6 : String :=
  " size-"

def tplChunk7 : String :=
  " "

def tplChunk8 : String :=
  " "

def tplChunk9 : String :=
  "\"\n        "

def tplChunk10 : String :=
  "\n        "

def tplChunk11 : String :=
  "\n        "

def tplChunk12 : String :=
  "\n        "

def tplChunk13 : String :=
  "\n        "

def tplChunk14 : String :=
  "\n        tabindex=\""

def tplChunk15 : String :=
  "\"\n        role=\""

def tplChunk16 : String :=
  "\"\n        "

def tplChunk17 : String :=
  "\n        "

def tplChunk18 : String :=
  "\n        "

def tplChunk19 : String :=
  "\n      >\n        <span class=\"btn-content\">\n          "

def tplChunk20 : String :=
  "\n          <slot></slot>\n        </span>\n      </"

def tplChunk21 : String :=
  ">\n    "

def glowChunk0 : String :=
  "\n        .btn.variant-glow \x7b\n          box-shadow: 0 0 20px "

def glowChunk1 : String :=
  " !important;\n        \x7d\n        .btn.variant-glow:hover:not(.disabled):not(.loading) \x7b\n          box-shadow: 0 0 30px "

def glowChunk2 : String :=
  " !important;\n        \x7d\n      "

def hoverChunk0 : String :=
  "\n      /* Custom hover styles with higher specificity */\n      .btn."

def hoverChunk1 : String :=
  ":hover:not(.disabled):not(.loading) \x7b\n        "

def hoverChunk2 : String :=
  "\n        "

def hoverChunk3 : String :=
  "\n      \x7d\n      \n      /* Custom active styles with higher specificity */\n      .btn."

def hoverChunk4 : String :=
  ":active:not(.disabled):not(.loading) \x7b\n        "

def hoverChunk5 : String :=
  "\n        "

def hoverChunk6 : String :=
  "\n      \x7d\n    "

/-- A conditional style fragment: JavaScript
`cond ? pre + value + post : ""` where `cond` is the truthiness of the
nullable string `value`. -/
def ternStr (v : Option String) (pre post : String) : String :=
  match v with
  | none => ""
  | some s => if s = "" then "" else pre ++ s ++ post

/-- One `styles.push(...)` of `generateInlineStyles`, guarded by the
truthiness of the attribute value. -/
def styleEntry (v : Option String) (pre post : String) : List String :=
  match v with
  | none => []
  | some s => if s = "" then [] else [pre ++ s ++ post]

/-- `generateInlineStyles()` (src/cdn.js lines 256–273): `color` and
`background` without `!important`, the layout/box fields with it, joined
by `"; "`. -/
def generateInlineStyles (a : Attrs) : String :=
  let styles : List String :=
    styleEntry (color a) "color: " ""
    ++ styleEntry (bgColor a) "background: " ""
    ++ styleEntry (border a) "border: " " !important"
    ++ styleEntry (radius a) "border-radius: " " !important"
    ++ styleEntry (padding a) "padding: " " !important"
    ++ styleEntry (fontSize a) "font-size: " " !important"
    ++ styleEntry (fontWeight a) "font-weight: " " !important"
    ++ styleEntry (widthAttr a) "width: " " !important"
    ++ styleEntry (heightAttr a) "height: " " !important"
    ++ styleEntry (shadowAttr a) "box-shadow: " " !important"
  String.intercalate "; " styles

/-- The `glowEffect` string of `render()` (lines 290–302): non-empty only
for the "glow" variant, with `glowColor` falling back to the fixed color. -/
def glowEffectStr (a : Attrs) : String :=
  if variant a = "glow" then
    let gc := jsOr (glowColor a) "rgba(37, 99, 235, 0.5)"
    glowChunk0 ++ gc ++ glowChunk1 ++ gc ++ glowChunk2
  else ""

/-- The `customHoverActiveStyles` string of `render()` (lines 304–325):
instance-scoped hover/active override rules. -/
def customHoverActiveStylesStr (a : Attrs) (instanceId : String) : String :=
  hoverChunk0 ++ instanceId ++ hoverChunk1
  ++ ternStr (hoverColor a) "color: " " !important;"
  ++ hoverChunk2
  ++ ternStr (hoverBgColor a) "background: " " !important;"
  ++ hoverChunk3 ++ instanceId ++ hoverChunk4
  ++ ternStr (activeColor a) "color: " " !important;"
  ++ hoverChunk5
  ++ ternStr (activeBgColor a) "background: " " !important;"
  ++ hoverChunk6

/-- The full `shadowRoot.innerHTML` string assigned by `render()`
(lines 327–640), for a given instance identifier. -/
def renderMarkup (a : Attrs) (instanceId : String) : String :=
  let isLink := truthy (href a)
  let isDisabled := disabled a || loading a
  let elementType := if isLink then "a" else "button"
  let inlineStyles := generateInlineStyles a
  tplChunk0 ++ (if fullWidth a then "block" else "inline-block")
  ++ tplChunk1 ++ glowEffectStr a
  ++ tplChunk2 ++ customHoverActiveStylesStr a instanceId
  ++ tplChunk3 ++ elementType
  ++ tplChunk4 ++ instanceId
  ++ tplChunk5 ++ variant a
  ++ tplChunk6 ++ size a
  ++ tplChunk7 ++ (if isDisabled then "disabled" else "")
  ++ tplChunk8 ++ (if loading a then "loading" else "")
  ++ tplChunk9 ++ (if !isLink then "type=\"button\"" else "")
  ++ tplChunk10 ++ (if isLink then "href=\"" ++ (href a).getD "" ++ "\"" else "")
  ++ tplChunk11 ++ (if isLink then "target=\"" ++ target a ++ "\"" else "")
  ++ tplChunk12 ++ (if isDisabled then "disabled" else "")
  ++ tplChunk13
  ++ (if isLink then "" else "aria-disabled=\"" ++ (if isDisabled then "true" else "false") ++ "\"")
  ++ tplChunk14 ++ (if isDisabled then "-1" else "0")
  ++ tplChunk15 ++ (if isLink then "link" else "button")
  ++ tplChunk16 ++ (if loading a then "aria-busy=\"true\"" else "")
  ++ tplChunk17 ++ (if loading a then "aria-live=\"polite\"" else "")
  ++ tplChunk18
  ++ (if inlineStyles ≠ "" then "style=\"" ++ inlineStyles ++ "\"" else "")
  ++ tplChunk19
  ++ (if loading a then "<span class=\"loading-spinner\" aria-hidden=\"true\"></span>" else "")
  ++ tplChunk20 ++ elementType
  ++ tplChunk21

/-- `getInstanceId()` (lines 276–281): the random suffix is drawn once and
cached in `_instanceId`.  `fresh` stands for the value
`Math.random().toString(36).substr(2, 9)` would produce on this call; it is
only consulted when the cache is empty.  Returns the id and the updated
cache. -/
def getInstanceId (cached : Option String) (fresh : String) : String × Option String :=
  match cached with
  | some id => (id, some id)
  | none => ("lume-btn-" ++ fresh, some ("lume-btn-" ++ fresh))

/-- `render()` (lines 283–644): the produced `shadowRoot.innerHTML` string
together with the updated `_instanceId` cache. -/
def render (a : Attrs) (cached : Option String) (fresh : String) : String × Option String :=
  let idc := getInstanceId cached fresh
  (renderMarkup a idc.1, idc.2)

/-! ## Ripple effect (src/cdn.js lines 646–684) -/

/-- `getBoundingClientRect()` of the rendered activatable element. -/
structure Rect where
  left : ℚ
  top : ℚ
  width : ℚ
  height : ℚ
  deriving DecidableEq, Repr

/-- The transient `.ripple` overlay span, by its inline geometry. -/
structure Ripple where
  width : ℚ
  height : ℚ
  left : ℚ
  top : ℚ
  deriving DecidableEq, Repr

/-- `createRipple(event)` (lines 663–684), up to the deferred removal:
`none` (no overlay appended) when gated or the variant is "link",
otherwise the single overlay appended to the button. -/
def createRipple (a : Attrs) (rect : Rect) (ev : Event) : Option Ripple :=
  if disabled a || loading a || variant a = "link" then none
  else
    let size := max rect.width rect.height
    let x := ev.clientX - rect.left - size / 2
    let y := ev.clientY - rect.top - size / 2
    some { width := size, height := size, left := x, top := y }

/-- Delay (ms) of the `setTimeout` that removes the overlay (line 683). -/
def rippleRemoveDelayMs : Nat := 600

/-- Effect of the `setTimeout` callback (lines 679–683). -/
inductive RippleRemoval where
  | removed
  | noop
  deriving DecidableEq, Repr

/-- The `setTimeout` callback: `if (ripple.parentNode) ripple.remove()` —
removal only when the overlay is still attached, otherwise a no-op. -/
def rippleTimeoutStep (hasParent : Bool) : RippleRemoval :=
  if hasParent then .removed else .noop

/-- `setupRippleEffect()` (lines 646–661), modelled on the number of ripple
listeners attached by this instance to the current `.btn` element: when the
button exists and the element is not gated, the previous listener (if any)
is first removed via `_rippleCleanup` and exactly one new listener is
attached; otherwise nothing changes. -/
def setupRippleEffect (btnExists : Bool) (a : Attrs) (prevListeners : Nat) : Nat :=
  if btnExists && !disabled a && !loading a then 1 else prevListeners

/-! ## Pre-upgrade property absorption (src/cdn.js lines 176–185)

`_upgradeProperties` loops over `observedAttributes`; for each name that is
a plain own property of the instance it reads the value, deletes the own
property and assigns `this[prop] = value` again.  That assignment reaches
`setAttribute` only for the five names with a prototype setter; for names
with only a getter the strict-mode assignment throws a `TypeError`
(the source is an ES module); for names with no accessor at all it merely
recreates the plain own property. -/

/-- A JavaScript value stored as a plain own property before upgrade. -/
inductive JSVal where
  | vStr (s : String)
  | vBool (b : Bool)
  | vNull
  deriving DecidableEq, Repr

/-- String coercion applied by `setAttribute`. -/
def JSVal.toStr : JSVal → String
  | .vStr s => s
  | .vBool b => if b then "true" else "false"
  | .vNull => "null"

/-- JavaScript truthiness of a value. -/
def JSVal.jsTruthy : JSVal → Bool
  | .vStr s => s ≠ ""
  | .vBool b => b
  | .vNull => false

/-- `static get observedAttributes()` (lines 18–44). -/
def observedAttributes : List String :=
  ["variant", "size", "disabled", "href", "target", "color", "bg-color",
   "hover-color", "hover-bg-color", "active-color", "active-bg-color",
   "border", "radius", "padding", "font-size", "font-weight", "width",
   "height", "glow-color", "shadow", "onclick-handler", "loading",
   "full-width"]

/-- Observed attribute names for which the class prototype declares both a
getter and a setter (lines 156–174); only for these does
`this[prop] = value` reach `setAttribute`. -/
def setterNames : List String := ["variant", "size", "disabled", "loading", "href"]

/-- Observed attribute names for which the prototype declares a getter but
no setter (`get target/color/border/radius/padding/width/height/shadow`);
assigning to them in strict mode throws.  The remaining observed names
(kebab-case like `bg-color`, `onclick-handler`, `full-width`) have no
accessor at all: the camel-case getters (`bgColor`, …) do not match them. -/
def getterOnlyNames : List String :=
  ["target", "color", "border", "radius", "padding", "width", "height", "shadow"]

/-- Instance state relevant to `_upgradeProperties`: plain own properties
(in insertion order) and the attribute bag. -/
structure Inst where
  own : List (String × JSVal)
  attrs : Attrs
  deriving DecidableEq, Repr

/-- Effect of `this[prop] = value` for one of the five setter-backed names
(`set variant/size/disabled/loading/href`). -/
def applySetter (prop : String) (value : JSVal) (a : Attrs) : Attrs :=
  if prop = "variant" then setVariant a value.toStr
  else if prop = "size" then setSize a value.toStr
  else if prop = "disabled" then setDisabled a value.jsTruthy
  else if prop = "loading" then setLoading a value.jsTruthy
  else if prop = "href" then
    (if value.jsTruthy then setAttribute a "href" value.toStr else removeAttribute a "href")
  else a

/-- One iteration of the `_upgradeProperties` loop body for `prop`:
`if (this.hasOwnProperty(prop)) { const value = this[prop];
delete this[prop]; this[prop] = value; }`. -/
def upgradeProp (st : Inst) (prop : String) : Except String Inst :=
  if st.own.any (fun p => p.1 = prop) then
    let value := ((st.own.find? (fun p => p.1 = prop)).map (·.2)).getD .vNull
    let own' := st.own.filter (fun p => p.1 ≠ prop)
    if setterNames.contains prop then
      .ok { own := own', attrs := applySetter prop value st.attrs }
    else if getterOnlyNames.contains prop then
      .error ("TypeError: Cannot set property " ++ prop)
    else
      .ok { own := own' ++ [(prop, value)], attrs := st.attrs }
  else .ok st

/-- `_upgradeProperties()` (lines 177–185): the loop over
`observedAttributes`; a thrown `TypeError` aborts the `forEach` and
propagates. -/
def upgradeProperties (st : Inst) : Except String Inst :=
  observedAttributes.foldlM upgradeProp st

/-! ## Helper lemmas -/

/-- Reading back an attribute just set yields the written value. -/
theorem getAttribute_setAttribute (a : Attrs) (n v : String) :
    getAttribute (setAttribute a n v) n = some v := by
  simp [getAttribute, setAttribute]

/-- Reading back a removed attribute yields `none`. -/
theorem getAttribute_removeAttribute (a : Attrs) (n : String) :
    getAttribute (removeAttribute a n) n = none := by
  unfold getAttribute removeAttribute
  rw [Option.map_eq_none', List.find?_eq_none]
  intro x hx
  simpa using (List.mem_filter.mp hx).2

/-- An invalid raw `variant` value resolves to the default. -/
theorem resolveVariant_invalid (s : String) (h : validVariants.contains s = false) :
    resolveVariant (some s) = "primary" := by
  have h' : s ∉ validVariants := by simpa using h
  by_cases hs : s = ""
  · subst hs; decide
  · simp [resolveVariant, jsOr, hs, h']

/-- An invalid raw `size` value resolves to the default. -/
theorem resolveSize_invalid (s : String) (h : validSizes.contains s = false) :
    resolveSize (some s) = "medium" := by
  have h' : s ∉ validSizes := by simpa using h
  by_cases hs : s = ""
  · subst hs; decide
  · simp [resolveSize, jsOr, hs, h']

/-- An invalid raw `target` value resolves to the default. -/
theorem resolveTarget_invalid (s : String) (h : validTargets.contains s = false) :
    resolveTarget (some s) = "_self" := by
  have h' : s ∉ validTargets := by simpa using h
  by_cases hs : s = ""
  · subst hs; decide
  · simp [resolveTarget, jsOr, hs, h']

/-- `resolveVariant` only ever produces a member of `validVariants`. -/
theorem resolveVariant_mem (raw : Option String) :
    validVariants.contains (resolveVariant raw) = true := by
  unfold resolveVariant
  cases hb : validVariants.contains (jsOr raw "primary") with
  | false =>
      have hc : ¬ (validVariants.contains (jsOr raw "primary") = true) := by
        rw [hb]; exact Bool.false_ne_true
      rw [if_neg hc]; decide
  | true =>
      rw [if_pos hb]; exact hb

/-- `resolveSize` only ever produces a member of `validSizes`. -/
theorem resolveSize_mem (raw : Option String) :
    validSizes.contains (resolveSize raw) = true := by
  unfold resolveSize
  cases hb : validSizes.contains (jsOr raw "medium") with
  | false =>
      have hc : ¬ (validSizes.contains (jsOr raw "medium") = true) := by
        rw [hb]; exact Bool.false_ne_true
      rw [if_neg hc]; decide
  | true =>
      rw [if_pos hb]; exact hb

/-- `resolveTarget` only ever produces a member of `validTargets`. -/
theorem resolveTarget_mem (raw : Option String) :
    validTargets.contains (resolveTarget raw) = true := by
  unfold resolveTarget
  cases hb : validTargets.contains (jsOr raw "_self") with
  | false =>
      have hc : ¬ (validTargets.contains (jsOr raw "_self") = true) := by
        rw [hb]; exact Bool.false_ne_true
      rw [if_neg hc]; decide
  | true =>
      rw [if_pos hb]; exact hb

/-! ## Claim theorems -/

/-- C1 counterexample: the claim asserts that every *keyboard-equivalent*
activation on a gated instance also has its default behavior suppressed and
its propagation stopped.  On a disabled instance, an `Enter` keydown takes
the `handleKeydown` path, whose guard `!this.disabled && !this.loading`
fails, so the handler returns without calling `preventDefault` or
`stopPropagation`: both flags remain `false`. -/
theorem gated_keydown_does_not_suppress :
    disabled [("disabled", "")] = true ∧
    (handleKeydown [("disabled", "")] { key := "Enter" } {}).event.defaultPrevented = false ∧
    (handleKeydown [("disabled", "")] { key := "Enter" } {}).event.propagationStopped = false := by
  refine ⟨rfl, ?_, ?_⟩ <;> rfl

/-- C1 (amended): on a gated instance (disabled or loading), a pointer
activation through `handleClick` never runs the custom action, never
navigates, never dispatches `lume-click`, and suppresses the event's
default behavior and propagation; a keyboard-equivalent activation through
`handleKeydown` likewise triggers none of those effects, but it leaves the
event's default behavior and propagation untouched. -/
theorem gated_activation_inert (a : Attrs) (ev : Event) (h : HandlerOutcome)
    (hg : (disabled a || loading a) = true) :
    (handleClick a ev h).actionAttempted = false ∧
    (handleClick a ev h).errorLogged = none ∧
    (handleClick a ev h).navigations = [] ∧
    (handleClick a ev h).dispatched = none ∧
    (handleClick a ev h).event.defaultPrevented = true ∧
    (handleClick a ev h).event.propagationStopped = true ∧
    (handleKeydown a ev h).click = none ∧
    (handleKeydown a ev h).event = ev := by
  cases hd : disabled a <;> cases hl : loading a <;>
    simp [hd, hl] at hg ⊢ <;>
    simp [handleClick, handleKeydown, hd, hl]

/-- C1 witness: the theorem applied to a concrete disabled instance. -/
theorem gated_activation_inert_witness :
    (handleClick [("disabled", "")] {} {}).dispatched = none ∧
    (handleKeydown [("disabled", "")] {} {}).click = none := by
  refine ⟨?_, ?_⟩
  · exact (gated_activation_inert [("disabled", "")] {} {} (by decide)).2.2.2.1
  · exact (gated_activation_inert [("disabled", "")] {} {} (by decide)).2.2.2.2.2.2.1

/-- C2: on an ungated activation with a (truthy) `onclick-handler`
configured, a throw during construction or invocation of the callable is
caught: the error is reported to `console.error`, and the result is
exactly the result of the same activation with a non-throwing handler,
except for the log entry — in particular the href-navigation step and the
`lume-click` dispatch still execute.  (Nothing is re-thrown: `handleClick`
is a total function into `ClickResult`.) -/
theorem thrown_handler_isolated (a : Attrs) (ev : Event) (h : HandlerOutcome)
    (hg : (disabled a || loading a) = false)
    (hh : truthy (onclickHandler a) = true)
    (ht : h.threw = true) :
    (handleClick a ev h).errorLogged = some "Error executing onclick handler:" ∧
    (handleClick a ev h).dispatched.isSome = true ∧
    handleClick a ev h =
      { handleClick a ev { h with threw := false } with
          errorLogged := some "Error executing onclick handler:" } := by
  cases hd : disabled a <;> cases hl : loading a <;> simp [hd, hl] at hg
  simp [handleClick, hd, hl, hh, ht]

/-- C2 witness: a concrete ungated instance whose handler throws still
logs the error and dispatches `lume-click`. -/
theorem thrown_handler_isolated_witness :
    (handleClick [("onclick-handler", "boom"), ("href", "https://example.com")] {}
        { threw := true }).errorLogged = some "Error executing onclick handler:" ∧
    (handleClick [("onclick-handler", "boom"), ("href", "https://example.com")] {}
        { threw := true }).dispatched.isSome = true := by
  refine ⟨?_, ?_⟩
  · exact (thrown_handler_isolated [("onclick-handler", "boom"), ("href", "https://example.com")]
      {} { threw := true } (by decide) (by decide) rfl).1
  · exact (thrown_handler_isolated [("onclick-handler", "boom"), ("href", "https://example.com")]
      {} { threw := true } (by decide) (by decide) rfl).2.1

/-- C3: every raw `variant`/`size`/`target` value outside the valid set
(including the missing-attribute case) resolves to the documented default
(`"primary"` / `"medium"` / `"_self"`), and every member of the valid set
resolves to itself. -/
theorem enum_fallback_to_default :
    (∀ s : String, validVariants.contains s = false → resolveVariant (some s) = "primary") ∧
    resolveVariant none = "primary" ∧
    (∀ s ∈ validVariants, resolveVariant (some s) = s) ∧
    (∀ s : String, validSizes.contains s = false → resolveSize (some s) = "medium") ∧
    resolveSize none = "medium" ∧
    (∀ s ∈ validSizes, resolveSize (some s) = s) ∧
    (∀ s : String, validTargets.contains s = false → resolveTarget (some s) = "_self") ∧
    resolveTarget none = "_self" ∧
    (∀ s ∈ validTargets, resolveTarget (some s) = s) := by
  refine ⟨resolveVariant_invalid, rfl, ?_, resolveSize_invalid, rfl, ?_,
    resolveTarget_invalid, rfl, ?_⟩ <;>
    intro s hs <;> fin_cases hs <;> rfl

/-- C3 witness: the fallback and identity at concrete raw values. -/
theorem enum_fallback_to_default_witness :
    resolveVariant (some "sparkly") = "primary" ∧ resolveVariant (some "ghost") = "ghost" ∧
    resolveSize (some "huge") = "medium" ∧ resolveSize (some "small") = "small" ∧
    resolveTarget (some "_weird") = "_self" ∧ resolveTarget (some "_parent") = "_parent" := by
  refine ⟨?_, ?_, ?_, ?_, ?_, ?_⟩
  · exact enum_fallback_to_default.1 "sparkly" (by decide)
  · exact enum_fallback_to_default.2.2.1 "ghost" (by decide)
  · exact enum_fallback_to_default.2.2.2.1 "huge" (by decide)
  · exact enum_fallback_to_default.2.2.2.2.2.1 "small" (by decide)
  · exact enum_fallback_to_default.2.2.2.2.2.2.1 "_weird" (by decide)
  · exact enum_fallback_to_default.2.2.2.2.2.2.2.2 "_parent" (by decide)

/-- C4: rendering twice in succession with an unchanged attribute bag
produces byte-identical shadow markup and style text.  The statement
covers both an already-cached `_instanceId` and a first render (where the
id is generated then cached): the second render reuses the cached id, so
the full `innerHTML` strings coincide whatever fresh random suffix the
second call would have drawn. -/
theorem render_idempotent (a : Attrs) (cached : Option String) (f1 f2 : String) :
    (render a cached f1).1 = (render a (render a cached f1).2 f2).1 := by
  cases cached <;> rfl

/-- C5 (code bug, evaluation at the failing inputs): `_upgradeProperties`
funnels a pre-set plain property through the attribute path only for the
five observed names with a prototype setter.  A pre-set `hover-color`
(a name with no accessor at all) is read, deleted and then *recreated as a
plain own property* — the attribute bag stays empty and the own property
survives, contradicting "removes the plain own property and funnels the
value through the normal attribute-setting path exactly once".  A pre-set
`color` (getter only) makes the strict-mode re-assignment throw a
`TypeError`.  A pre-set `disabled` (getter and setter) is absorbed as the
claim describes. -/
theorem upgrade_absorption_at_failing_input :
    upgradeProperties { own := [("hover-color", JSVal.vStr "red")], attrs := [] }
      = Except.ok { own := [("hover-color", JSVal.vStr "red")], attrs := [] } ∧
    upgradeProperties { own := [("color", JSVal.vStr "red")], attrs := [] }
      = Except.error "TypeError: Cannot set property color" ∧
    upgradeProperties { own := [("disabled", JSVal.vBool true)], attrs := [] }
      = Except.ok { own := [], attrs := [("disabled", "")] } :=
  ⟨rfl, rfl, rfl⟩

/-- C6 counterexample: writing the empty string through the `href` setter
does not read back as the written value — the truthiness test in
`set href` removes the attribute, so the getter returns `null` (`none`),
not `""`. -/
theorem empty_href_write_reads_back_null :
    href (setHref [] (some "")) = none := rfl

/-- C6 (amended): boolean writes through `disabled`/`loading` round-trip
through attribute presence, and `href` writes round-trip through the
attribute value for every non-empty string and for `null` — but not for
`""`, which reads back as `null`.  No render is involved: the getters read
the attribute bag directly. -/
theorem property_write_read_roundtrip (a : Attrs) (b : Bool) (v : String)
    (hv : v ≠ "") :
    disabled (setDisabled a b) = b ∧
    loading (setLoading a b) = b ∧
    href (setHref a (some v)) = some v ∧
    href (setHref a none) = none := by
  refine ⟨?_, ?_, ?_, ?_⟩
  · cases b <;>
      simp [disabled, setDisabled, hasAttribute, getAttribute_setAttribute,
        getAttribute_removeAttribute]
  · cases b <;>
      simp [loading, setLoading, hasAttribute, getAttribute_setAttribute,
        getAttribute_removeAttribute]
  · simp [href, setHref, truthy, hv, getAttribute_setAttribute]
  · simp [href, setHref, truthy, getAttribute_removeAttribute]

/-- C6 witness: the round-trips at concrete values. -/
theorem property_write_read_roundtrip_witness :
    disabled (setDisabled [] true) = true ∧
    loading (setLoading [] false) = false ∧
    href (setHref [] (some "https://example.com")) = some "https://example.com" ∧
    href (setHref [] none) = none := by
  have h := property_write_read_roundtrip [] true "https://example.com" (by decide)
  have h2 := property_write_read_roundtrip [] false "https://example.com" (by decide)
  exact ⟨h.1, h2.2.1, h.2.2.1, h.2.2.2⟩

/-- C7: on an ungated activation with a truthy `href`, an event whose
default was not already prevented and a custom handler that did not
prevent it either, the handler suppresses native default navigation and:
with resolved target `"_blank"`, issues exactly one `window.open` with
`"noopener,noreferrer"` features (and no current-context navigation);
with any other resolved target, issues exactly one
`window.location.href = href` navigation. -/
theorem blank_target_opens_new_context (a : Attrs) (ev : Event) (h : HandlerOutcome)
    (hg : (disabled a || loading a) = false)
    (hh : truthy (href a) = true)
    (hp : ev.defaultPrevented = false)
    (hcp : h.prevented = false) :
    (target a = "_blank" →
      (handleClick a ev h).navigations
        = [NavAction.openWindow ((href a).getD "") "_blank" "noopener,noreferrer"]) ∧
    (target a ≠ "_blank" →
      (handleClick a ev h).navigations = [NavAction.setLocationHref ((href a).getD "")]) ∧
    (handleClick a ev h).event.defaultPrevented = true := by
  cases hd : disabled a <;> cases hl : loading a <;> simp [hd, hl] at hg
  refine ⟨fun htb => ?_, fun htb => ?_, ?_⟩
  · cases hoh : truthy (onclickHandler a) <;>
      simp [handleClick, hd, hl, hh, hp, hcp, hoh, htb]
  · cases hoh : truthy (onclickHandler a) <;>
      simp [handleClick, hd, hl, hh, hp, hcp, hoh, htb]
  · cases hoh : truthy (onclickHandler a) <;>
      simp [handleClick, hd, hl, hh, hp, hcp, hoh]

/-- C7 witness: concrete ungated activations with `target="_blank"` and
with the default target. -/
theorem blank_target_opens_new_context_witness :
    (handleClick [("href", "https://example.com"), ("target", "_blank")] {} {}).navigations
      = [NavAction.openWindow "https://example.com" "_blank" "noopener,noreferrer"] ∧
    (handleClick [("href", "https://example.com")] {} {}).navigations
      = [NavAction.setLocationHref "https://example.com"] := by
  constructor
  · exact (blank_target_opens_new_context
      [("href", "https://example.com"), ("target", "_blank")] {} {}
      (by decide) (by decide) rfl rfl).1 (by decide)
  · exact (blank_target_opens_new_context
      [("href", "https://example.com")] {} {}
      (by decide) (by decide) rfl rfl).2.1 (by decide)

/-- C8: the ripple handler creates no overlay when gated or when the
variant is "link"; otherwise it creates exactly one overlay, a square of
side `max(width, height)` whose center is the pointer's activation
coordinates relative to the element's bounds; `setupRippleEffect` leaves
exactly one ripple listener after an ungated render (the previous one is
cleaned up first); the overlay is removed after the fixed 600 ms delay,
with removal a no-op if it is already detached. -/
theorem ripple_overlay_spec (a : Attrs) (rect : Rect) (ev : Event) (n : Nat) :
    ((disabled a || loading a) = true ∨ variant a = "link" →
      createRipple a rect ev = none) ∧
    ((disabled a || loading a) = false → variant a ≠ "link" →
      createRipple a rect ev
        = some { width := max rect.width rect.height,
                 height := max rect.width rect.height,
                 left := ev.clientX - rect.left - max rect.width rect.height / 2,
                 top := ev.clientY - rect.top - max rect.width rect.height / 2 } ∧
      (createRipple a rect ev).map
          (fun r => (r.left + r.width / 2, r.top + r.height / 2))
        = some (ev.clientX - rect.left, ev.clientY - rect.top)) ∧
    ((disabled a || loading a) = false → setupRippleEffect true a n = 1) ∧
    rippleRemoveDelayMs = 600 ∧
    rippleTimeoutStep true = RippleRemoval.removed ∧
    rippleTimeoutStep false = RippleRemoval.noop := by
  refine ⟨?_, ?_, ?_, rfl, rfl, rfl⟩
  · rintro (hg | hv)
    · simp [createRipple, hg]
    · simp [createRipple, hv]
  · intro hg hv
    constructor
    · simp [createRipple, hg, hv]
    · simp [createRipple, hg, hv]
  · intro hg
    cases hd : disabled a <;> cases hl : loading a <;> simp [hd, hl] at hg
    simp [setupRippleEffect, hd, hl]

/-- C8 witness: a gated instance appends no overlay; an ungated default
instance appends the sized-and-centered overlay; one listener survives an
ungated setup. -/
theorem ripple_overlay_spec_witness :
    createRipple [("disabled", "")] ⟨1, 2, 10, 20⟩ {} = none ∧
    createRipple [] ⟨1, 2, 10, 20⟩ { clientX := 6, clientY := 12 }
      = some { width := max (10 : ℚ) 20, height := max (10 : ℚ) 20,
               left := 6 - 1 - max (10 : ℚ) 20 / 2, top := 12 - 2 - max (10 : ℚ) 20 / 2 } ∧
    setupRippleEffect true [] 5 = 1 := by
  refine ⟨?_, ?_, ?_⟩
  · exact (ripple_overlay_spec [("disabled", "")] ⟨1, 2, 10, 20⟩ {} 0).1 (Or.inl (by decide))
  · exact ((ripple_overlay_spec [] ⟨1, 2, 10, 20⟩ { clientX := 6, clientY := 12 } 0).2.1
      (by decide) (by decide)).1
  · exact (ripple_overlay_spec [] ⟨1, 2, 10, 20⟩ {} 5).2.2.1 (by decide)

/-- C9: `validate()` returns exactly one warning when `disabled` and
`loading` are both set and none otherwise, and the disabled+loading
conjunction is never a render error: `render` still produces (non-empty)
markup for every attribute bag, gated or not. -/
theorem validate_gated_conjunction_warning (a : Attrs) (instanceId : String) :
    validate a
      = (if disabled a && loading a then ["Button cannot be both disabled and loading"]
         else []) ∧
    (validate a).length = (if disabled a && loading a then 1 else 0) ∧
    0 < (renderMarkup a instanceId).length := by
  refine ⟨?_, ?_, ?_⟩
  · cases hd : disabled a <;> cases hl : loading a <;> simp [validate, hd, hl]
  · cases hd : disabled a <;> cases hl : loading a <;> simp [validate, hd, hl]
  · have h1 : 0 < tplChunk0.length := by decide
    simp only [renderMarkup, String.length_append]
    omega

/-- C10: property reads of `variant`, `size` and `target` always return a
member of the corresponding valid set, whatever the attribute holds; the
`variant`/`size` setters store an invalid string in the attribute without
rejection, and reading the property back then returns the documented
default rather than the written value. -/
theorem enum_reads_always_valid (a : Attrs) (s : String)
    (hv : validVariants.contains s = false)
    (hs : validSizes.contains s = false) :
    validVariants.contains (variant a) = true ∧
    validSizes.contains (size a) = true ∧
    validTargets.contains (target a) = true ∧
    getAttribute (setVariant a s) "variant" = some s ∧
    variant (setVariant a s) = "primary" ∧
    getAttribute (setSize a s) "size" = some s ∧
    size (setSize a s) = "medium" := by
  refine ⟨resolveVariant_mem _, resolveSize_mem _, resolveTarget_mem _,
    getAttribute_setAttribute a "variant" s, ?_, getAttribute_setAttribute a "size" s, ?_⟩
  · unfold variant setVariant
    rw [getAttribute_setAttribute]
    exact resolveVariant_invalid s hv
  · unfold size setSize
    rw [getAttribute_setAttribute]
    exact resolveSize_invalid s hs

/-- C10 witness: writing the invalid enum string "bogus" stores it in the
attribute but reads back as the default. -/
theorem enum_reads_always_valid_witness :
    getAttribute (setVariant [] "bogus") "variant" = some "bogus" ∧
    variant (setVariant [] "bogus") = "primary" ∧
    size (setSize [] "bogus") = "medium" := by
  refine ⟨?_, ?_, ?_⟩
  · exact (enum_reads_always_valid [] "bogus" (by decide) (by decide)).2.2.2.1
  · exact (enum_reads_always_valid [] "bogus" (by decide) (by decide)).2.2.2.2.1
  · exact (enum_reads_always_valid [] "bogus" (by decide) (by decide)).2.2.2.2.2.2

end LumeButton
